import Mathlib

/-!
Verification model of the svelte-luma per-frame state and scheduling core.

The definitions below are a shallow embedding of the repository's code:

* `LumaState` and its methods embed the `LumaState` class of
  `src/lib/state.svelte.ts` (frame timing, viewport, mouse, the light
  registry, and the priority-ordered render-callback scheduler).
  JS numbers that only undergo field arithmetic are modelled as `ℚ`;
  JS symbols are modelled as `Nat` identifiers drawn from a freshness
  counter; the insertion-ordered `Map` is modelled as an association list.
* `Mat4` / `mat4Compose` / `mat4Multiply` / `mat4Translation` and
  `MatrixPool` embed `src/lib/math.ts` over `ℝ` (the trigonometric
  functions force the real carrier).
* `MeshTransform` embeds the transform cache of
  `src/lib/components/Mesh.svelte` (`checkTransformDirty` /
  `updateModelMatrix`).
* `render` embeds the per-frame tick driver (the `render(time)` function of
  the canvas component), with GPU work abstracted as trace events.

Render callbacks are JS closures that may mutate the registry or throw; they
are modelled syntactically: a callback identifier is interpreted by an
environment `env : Nat → List Op` giving the registry operations the closure
performs when invoked, `Op.throwErr` modelling a thrown exception.
-/

namespace Luma

/-- Frame timing state (`FrameState` in `state.svelte.ts`). -/
structure FrameState where
  time : ℚ
  deltaTime : ℚ
  frameCount : Nat
  deriving Repr, DecidableEq

/-- Viewport state (`ViewportState` in `state.svelte.ts`). -/
structure ViewportState where
  width : ℚ
  height : ℚ
  pixelRatio : ℚ
  aspect : ℚ
  deriving Repr, DecidableEq

/-- Mouse state (`MouseState` in `state.svelte.ts`). -/
structure MouseState where
  x : ℚ
  y : ℚ
  normalizedX : ℚ
  normalizedY : ℚ
  buttons : Nat
  isOver : Bool
  isDragging : Bool
  deriving Repr, DecidableEq

/-- The four light kinds of `LightState.type`. -/
inductive LightType where
  | point
  | directional
  | spot
  | ambient
  deriving Repr, DecidableEq

/-- A light descriptor (`LightState` in `state.svelte.ts`). -/
structure LightState where
  type : LightType
  position : ℚ × ℚ × ℚ
  direction : ℚ × ℚ × ℚ
  color : ℚ × ℚ × ℚ
  intensity : ℚ
  decay : ℚ
  distance : ℚ
  angle : ℚ
  penumbra : ℚ
  deriving Repr, DecidableEq

/-- A registered render callback (`RenderCallback` in `state.svelte.ts`).
`cb` identifies the closure (interpreted by an environment), `id` is the
`Symbol('render-callback')` token. -/
structure RenderCallback where
  cb : Nat
  priority : Int
  id : Nat
  deriving Repr, DecidableEq

/-- The opaque luma.gl `Device` collaborator: only its identity matters. -/
structure Device where
  handle : Nat
  deriving Repr, DecidableEq

/-- Insertion-ordered map update, as JS `Map.prototype.set`: an existing key
keeps its position and gets the new value, a new key is appended. -/
def mapSet (k : Nat) (v : LightState) : List (Nat × LightState) → List (Nat × LightState)
  | [] => [(k, v)]
  | (k', v') :: rest => if k' = k then (k, v) :: rest else (k', v') :: mapSet k v rest

/-- JS `Map.prototype.delete`: removes the entry with the given key. -/
def mapDelete (k : Nat) : List (Nat × LightState) → List (Nat × LightState)
  | [] => []
  | (k', v') :: rest => if k' = k then rest else (k', v') :: mapDelete k rest

/-- The keys of the association-list map. -/
def mapKeys (m : List (Nat × LightState)) : List Nat := m.map Prod.fst

/-- The unified reactive state container (`class LumaState`).
`nextId` supplies fresh `Symbol` identities for callback registration. -/
structure LumaState where
  device : Option Device
  ready : Bool
  frame : FrameState
  viewport : ViewportState
  mouse : MouseState
  lights : List (Nat × LightState)
  renderCallbacks : List RenderCallback
  sortedCallbacks : List RenderCallback
  needsSort : Bool
  lastTime : ℚ
  nextId : Nat
  deriving Repr, DecidableEq

/-- The field initializers of `class LumaState`. -/
def initialLumaState : LumaState where
  device := none
  ready := false
  frame := { time := 0, deltaTime := 0, frameCount := 0 }
  viewport := { width := 800, height := 600, pixelRatio := 1, aspect := 800 / 600 }
  mouse := { x := 0, y := 0, normalizedX := 0, normalizedY := 0,
             buttons := 0, isOver := false, isDragging := false }
  lights := []
  renderCallbacks := []
  sortedCallbacks := []
  needsSort := false
  lastTime := 0
  nextId := 0

namespace LumaState

/-- `setDevice(device)`. -/
def setDevice (device : Device) (s : LumaState) : LumaState :=
  { s with device := some device, ready := true }

/-- `updateFrame(time)`. -/
def updateFrame (time : ℚ) (s : LumaState) : LumaState :=
  let deltaTime := time - s.lastTime
  { s with
    lastTime := time
    frame := { time := time, deltaTime := deltaTime, frameCount := s.frame.frameCount + 1 } }

/-- `resetFrame()`. -/
def resetFrame (s : LumaState) : LumaState :=
  { s with lastTime := 0, frame := { time := 0, deltaTime := 0, frameCount := 0 } }

/-- `setViewport(width, height, pixelRatio)`. -/
def setViewport (width height pixelRatio : ℚ) (s : LumaState) : LumaState :=
  { s with viewport := { width := width, height := height, pixelRatio := pixelRatio,
                         aspect := width / height } }

/-- `updateMousePosition(clientX, clientY, rect)`; the `DOMRect` is given by
its `left` and `top` offsets. -/
def updateMousePosition (clientX clientY rectLeft rectTop : ℚ) (s : LumaState) : LumaState :=
  let x := clientX - rectLeft
  let y := clientY - rectTop
  { s with mouse := { s.mouse with
      x := x
      y := y
      normalizedX := (x / s.viewport.width) * 2 - 1
      normalizedY := -((y / s.viewport.height) * 2 - 1) } }

/-- `updateMouseButtons(buttons)`. -/
def updateMouseButtons (buttons : Nat) (s : LumaState) : LumaState :=
  { s with mouse := { s.mouse with
      buttons := buttons
      isDragging := decide (buttons > 0) && s.mouse.isOver } }

/-- `setMouseOver(isOver)`. -/
def setMouseOver (isOver : Bool) (s : LumaState) : LumaState :=
  { s with mouse := { s.mouse with
      isOver := isOver
      isDragging := if isOver then s.mouse.isDragging else false } }

/-- `addLight(id, light)` — `this.lights.set(id, light)`. -/
def addLight (id : Nat) (light : LightState) (s : LumaState) : LumaState :=
  { s with lights := mapSet id light s.lights }

/-- `removeLight(id)` — `this.lights.delete(id)`. -/
def removeLight (id : Nat) (s : LumaState) : LumaState :=
  { s with lights := mapDelete id s.lights }

/-- `getLightsArray()` — `Array.from(this.lights.values())`. -/
def getLightsArray (s : LumaState) : List LightState :=
  s.lights.map Prod.snd

/-- `addRenderCallback(callback, priority)`: pushes the entry, marks the sort
flag, and returns the fresh `Symbol` token. -/
def addRenderCallback (cb : Nat) (priority : Int) (s : LumaState) : Nat × LumaState :=
  (s.nextId,
   { s with
     renderCallbacks := s.renderCallbacks ++ [⟨cb, priority, s.nextId⟩]
     needsSort := true
     nextId := s.nextId + 1 })

/-- `removeRenderCallback(id)`: `findIndex` + `splice` — removes the first
entry with the given token and marks the sort flag; unknown tokens are a
no-op. -/
def removeRenderCallback (id : Nat) (s : LumaState) : LumaState :=
  if s.renderCallbacks.any (fun c => c.id = id) then
    { s with
      renderCallbacks := s.renderCallbacks.eraseP (fun c => c.id = id)
      needsSort := true }
  else s

/-- The comparator `(a, b) => a.priority - b.priority` of
`executeRenderCallbacks`, as the total preorder it induces. -/
def cbRel (a b : RenderCallback) : Prop := a.priority ≤ b.priority

instance : DecidableRel cbRel := fun a b =>
  inferInstanceAs (Decidable (a.priority ≤ b.priority))

instance : IsTotal RenderCallback cbRel :=
  ⟨fun a b => Int.le_total a.priority b.priority⟩

instance : IsTrans RenderCallback cbRel :=
  ⟨fun _ _ _ hab hbc => le_trans hab hbc⟩

/-- `[...this.renderCallbacks].sort((a, b) => a.priority - b.priority)`:
JS `Array.prototype.sort` is required to sort stably by the comparator, and
the stable sort of a list under a total preorder is unique, so it is
embedded as insertion sort under `cbRel`. -/
def sortCbs (l : List RenderCallback) : List RenderCallback :=
  List.insertionSort cbRel l

/-- An operation a render-callback closure may perform on the state while it
runs: register a callback, unregister one, or throw an exception. -/
inductive Op where
  | add (cb : Nat) (priority : Int)
  | remove (id : Nat)
  | throwErr (e : Nat)
  deriving Repr, DecidableEq

/-- Run the body of one callback closure: perform its operations in order;
a throw aborts the body, keeping the mutations made so far. -/
def runOps : List Op → LumaState → LumaState × Option Nat
  | [], s => (s, none)
  | Op.add cb p :: rest, s => runOps rest (addRenderCallback cb p s).2
  | Op.remove id :: rest, s => runOps rest (removeRenderCallback id s)
  | Op.throwErr e :: _, s => (s, some e)

/-- The `for (const { callback } of this.sortedCallbacks)` loop: invokes each
callback of the captured snapshot in order, recording the invoked entries;
an exception stops the loop and propagates. -/
def execLoop (env : Nat → List Op) :
    List RenderCallback → LumaState → LumaState × List RenderCallback × Option Nat
  | [], s => (s, [], none)
  | c :: rest, s =>
    let r := runOps (env c.cb) s
    match r.2 with
    | some e => (r.1, [c], some e)
    | none =>
      let r' := execLoop env rest r.1
      (r'.1, c :: r'.2.1, r'.2.2)

/-- The ordered snapshot `executeRenderCallbacks` iterates over: the lazily
re-sorted view of the registry, fixed by the state at the start of the call. -/
def snapshot (s : LumaState) : List RenderCallback :=
  if s.needsSort then sortCbs s.renderCallbacks else s.sortedCallbacks

/-- The state after the re-sort phase of `executeRenderCallbacks`, before
any callback is invoked. -/
def postSortState (s : LumaState) : LumaState :=
  if s.needsSort then
    { s with sortedCallbacks := sortCbs s.renderCallbacks, needsSort := false }
  else s

/-- `executeRenderCallbacks()`: re-sorts if flagged, then invokes the
snapshot in order. Returns the final state, the invoked entries in invocation
order, and the propagated exception if a callback threw. -/
def executeRenderCallbacks (env : Nat → List Op) (s : LumaState) :
    LumaState × List RenderCallback × Option Nat :=
  let s1 := if s.needsSort then
    { s with sortedCallbacks := sortCbs s.renderCallbacks, needsSort := false }
  else s
  execLoop env s1.sortedCallbacks s1

end LumaState

/-! ## `src/lib/math.ts` -/

/-- A `Vec3` (`[number, number, number]`) over the real carrier. -/
abbrev Vec3 : Type := ℝ × ℝ × ℝ

/-- A 4×4 column-major matrix: the 16 contiguous floats of a
`Float32Array(16)`, `mI` being element `m[I]`. -/
@[ext] structure Mat4 where
  m0 : ℝ
  m1 : ℝ
  m2 : ℝ
  m3 : ℝ
  m4 : ℝ
  m5 : ℝ
  m6 : ℝ
  m7 : ℝ
  m8 : ℝ
  m9 : ℝ
  m10 : ℝ
  m11 : ℝ
  m12 : ℝ
  m13 : ℝ
  m14 : ℝ
  m15 : ℝ

/-- `new Float32Array(16)` is zero-filled. -/
noncomputable def zeroMat4 : Mat4 :=
  ⟨0, 0, 0, 0, 0, 0, 0, 0, 0, 0, 0, 0, 0, 0, 0, 0⟩

/-- `mat4Identity()`. -/
noncomputable def mat4Identity : Mat4 :=
  ⟨1, 0, 0, 0, 0, 1, 0, 0, 0, 0, 1, 0, 0, 0, 0, 1⟩

/-- `mat4Translation(x, y, z)`. -/
noncomputable def mat4Translation (x y z : ℝ) : Mat4 :=
  ⟨1, 0, 0, 0, 0, 1, 0, 0, 0, 0, 1, 0, x, y, z, 1⟩

/-- `mat4Compose(position, rotation, scale)`: combined rotation (ZYX Euler)
and scale, with the translation in the last column. `sx sy sz` are the scale
components as in the source; `sx' sy' sz'` are the sines written `sx_` there. -/
noncomputable def mat4Compose (position rotation scale : Vec3) : Mat4 :=
  let px := position.1; let py := position.2.1; let pz := position.2.2
  let rx := rotation.1; let ry := rotation.2.1; let rz := rotation.2.2
  let sx := scale.1; let sy := scale.2.1; let sz := scale.2.2
  let cx := Real.cos rx; let sx' := Real.sin rx
  let cy := Real.cos ry; let sy' := Real.sin ry
  let cz := Real.cos rz; let sz' := Real.sin rz
  { m0 := cy * cz * sx
    m1 := cy * sz' * sx
    m2 := -sy' * sx
    m3 := 0
    m4 := (sx' * sy' * cz - cx * sz') * sy
    m5 := (sx' * sy' * sz' + cx * cz) * sy
    m6 := sx' * cy * sy
    m7 := 0
    m8 := (cx * sy' * cz + sx' * sz') * sz
    m9 := (cx * sy' * sz' - sx' * cz) * sz
    m10 := cx * cy * sz
    m11 := 0
    m12 := px
    m13 := py
    m14 := pz
    m15 := 1 }

/-- `mat4Multiply(a, b)` (column-major product `a · b`). -/
noncomputable def mat4Multiply (a b : Mat4) : Mat4 :=
  { m0 := b.m0 * a.m0 + b.m1 * a.m4 + b.m2 * a.m8 + b.m3 * a.m12
    m1 := b.m0 * a.m1 + b.m1 * a.m5 + b.m2 * a.m9 + b.m3 * a.m13
    m2 := b.m0 * a.m2 + b.m1 * a.m6 + b.m2 * a.m10 + b.m3 * a.m14
    m3 := b.m0 * a.m3 + b.m1 * a.m7 + b.m2 * a.m11 + b.m3 * a.m15
    m4 := b.m4 * a.m0 + b.m5 * a.m4 + b.m6 * a.m8 + b.m7 * a.m12
    m5 := b.m4 * a.m1 + b.m5 * a.m5 + b.m6 * a.m9 + b.m7 * a.m13
    m6 := b.m4 * a.m2 + b.m5 * a.m6 + b.m6 * a.m10 + b.m7 * a.m14
    m7 := b.m4 * a.m3 + b.m5 * a.m7 + b.m6 * a.m11 + b.m7 * a.m15
    m8 := b.m8 * a.m0 + b.m9 * a.m4 + b.m10 * a.m8 + b.m11 * a.m12
    m9 := b.m8 * a.m1 + b.m9 * a.m5 + b.m10 * a.m9 + b.m11 * a.m13
    m10 := b.m8 * a.m2 + b.m9 * a.m6 + b.m10 * a.m10 + b.m11 * a.m14
    m11 := b.m8 * a.m3 + b.m9 * a.m7 + b.m10 * a.m11 + b.m11 * a.m15
    m12 := b.m12 * a.m0 + b.m13 * a.m4 + b.m14 * a.m8 + b.m15 * a.m12
    m13 := b.m12 * a.m1 + b.m13 * a.m5 + b.m14 * a.m9 + b.m15 * a.m13
    m14 := b.m12 * a.m2 + b.m13 * a.m6 + b.m14 * a.m10 + b.m15 * a.m14
    m15 := b.m12 * a.m3 + b.m13 * a.m7 + b.m14 * a.m11 + b.m15 * a.m15 }

/-! ### `MatrixPool` -/

/-- The arena allocator `MatrixPool`: a backing store of matrix slots and the
next-unused index. Slot identity is the position in `pool`; distinct
positions are distinct `Float32Array` objects in the source. -/
structure MatrixPool where
  pool : List Mat4
  index : Nat

/-- `poolSize = 64`. -/
def poolSize : Nat := 64

/-- The `MatrixPool` constructor: pre-sizes the store with `poolSize`
zero-filled slots. -/
noncomputable def initMatrixPool : MatrixPool where
  pool := List.replicate poolSize zeroMat4
  index := 0

namespace MatrixPool

/-- `acquire()`: appends one fresh slot when the store is exhausted, then
returns the slot at the current index and advances the index. The returned
`Nat` is the slot (the position in the backing store) that the caller
receives. -/
noncomputable def acquire (s : MatrixPool) : Nat × MatrixPool :=
  let pool := if s.pool.length ≤ s.index then s.pool ++ [zeroMat4] else s.pool
  (s.index, { pool := pool, index := s.index + 1 })

/-- `reset()`: rewinds the allocation index. -/
def reset (s : MatrixPool) : MatrixPool :=
  { s with index := 0 }

/-- Writing into the `Float32Array` of slot `i` (the caller mutates the
matrix `acquire` handed out). -/
def writeSlot (s : MatrixPool) (i : Nat) (m : Mat4) : MatrixPool :=
  { s with pool := s.pool.set i m }

/-- `acquire()` repeated `n` times, recording the returned slots in order. -/
noncomputable def acquireN : Nat → MatrixPool → List Nat × MatrixPool
  | 0, s => ([], s)
  | n + 1, s =>
    let r := s.acquire
    let r' := acquireN n r.2
    (r.1 :: r'.1, r'.2)

end MatrixPool

/-! ## The transform cache of `src/lib/components/Mesh.svelte` -/

/-- The transform-cache state of a `Mesh` leaf: the current `position` /
`rotation` / `scale` props, the `lastPosition` / `lastRotation` / `lastScale`
copies taken at the last dirty check, the `matrixDirty` flag, and the
`cachedModelMatrix`. -/
structure MeshTransform where
  position : Vec3
  rotation : Vec3
  scale : Vec3
  lastPosition : Vec3
  lastRotation : Vec3
  lastScale : Vec3
  matrixDirty : Bool
  cachedModelMatrix : Mat4

/-- The component's initializers: `lastPosition = [...position]` etc.,
`matrixDirty = true`, `cachedModelMatrix = new Float32Array(16)`. -/
noncomputable def initMeshTransform (position rotation scale : Vec3) : MeshTransform where
  position := position
  rotation := rotation
  scale := scale
  lastPosition := position
  lastRotation := rotation
  lastScale := scale
  matrixDirty := true
  cachedModelMatrix := zeroMat4

namespace MeshTransform

/-- The parent component rebinding the `position` / `rotation` / `scale`
props. -/
def setProps (position rotation scale : Vec3) (m : MeshTransform) : MeshTransform :=
  { m with position := position, rotation := rotation, scale := scale }

open scoped Classical in
/-- `checkTransformDirty()`: compares the props component-wise against the
last cached copies; on a difference it refreshes the copies and reports
dirty. -/
noncomputable def checkTransformDirty (m : MeshTransform) : Bool × MeshTransform :=
  if m.position ≠ m.lastPosition ∨ m.rotation ≠ m.lastRotation ∨ m.scale ≠ m.lastScale then
    (true, { m with
      lastPosition := m.position
      lastRotation := m.rotation
      lastScale := m.scale })
  else (false, m)

/-- `updateModelMatrix()`: skips when neither the dirty check nor the
`matrixDirty` flag fires; otherwise recomposes the local TRS, applies the
ambient `lumaState.parentTransform` when one is installed, and clears the
flag. -/
noncomputable def updateModelMatrix (parentTransform : Option Mat4) (m : MeshTransform) :
    MeshTransform :=
  let r := m.checkTransformDirty
  if !r.1 && !m.matrixDirty then r.2
  else
    let localMatrix := mat4Compose r.2.position r.2.rotation r.2.scale
    let cached := match parentTransform with
      | some p => mat4Multiply p localMatrix
      | none => localMatrix
    { r.2 with cachedModelMatrix := cached, matrixDirty := false }

end MeshTransform

/-- The world matrix the spec prescribes for a leaf:
`ambientParentTransform × compose(position, rotation, scale)`, an absent
parent acting as the identity. -/
noncomputable def meshWorldMatrix (parentTransform : Option Mat4) (m : MeshTransform) : Mat4 :=
  match parentTransform with
  | some p => mat4Multiply p (mat4Compose m.position m.rotation m.scale)
  | none => mat4Compose m.position m.rotation m.scale

/-! ## The per-frame tick driver (`render(time)` of the canvas component) -/

/-- The container together with the module-level matrix pool of `math.ts`. -/
structure World where
  luma : LumaState
  pool : MatrixPool

/-- The externally observable actions of one tick: the auto-clear render
pass, each callback invocation, and the per-frame user callback. -/
inductive REvent where
  | autoClear
  | invoked (c : RenderCallback)
  | onframe

/-- `render(time)`: a no-op unless a device is set and the container is
ready; otherwise resets the matrix pool, advances the frame, optionally
clears, runs the scheduled callbacks (an exception propagating out), and
finally invokes the user's `onframe`. `hasOnframe` models whether an
`onframe` prop was supplied. -/
def render (env : Nat → List LumaState.Op) (autoClear hasOnframe : Bool) (time : ℚ) (w : World) :
    World × List REvent × Option Nat :=
  if w.luma.device = none ∨ w.luma.ready = false then (w, [], none)
  else
    let pool := w.pool.reset
    let luma := w.luma.updateFrame time
    let clearEvents := if autoClear then [REvent.autoClear] else []
    let r := LumaState.executeRenderCallbacks env luma
    match r.2.2 with
    | some e => (⟨r.1, pool⟩, clearEvents ++ r.2.1.map REvent.invoked, some e)
    | none =>
      let frameEvents := if hasOnframe && r.1.device.isSome then [REvent.onframe] else []
      (⟨r.1, pool⟩, clearEvents ++ r.2.1.map REvent.invoked ++ frameEvents, none)

/-! ## Concrete instances used by the theorems -/

/-- A sample point-light descriptor. -/
def sampleLight : LightState where
  type := LightType.point
  position := (0, 0, 0)
  direction := (0, 0, -1)
  color := (1, 1, 1)
  intensity := 1
  decay := 2
  distance := 0
  angle := 0
  penumbra := 0

/-- The container after registering nine lights with ids `0, …, 8`. -/
def nineLightsState : LumaState :=
  (List.range 9).foldl (fun s i => s.addLight i sampleLight) initialLumaState

/-- One mouse mutation of the container: the handlers call
`updateMousePosition`, `updateMouseButtons` or `setMouseOver`. -/
inductive MouseOp where
  | move (clientX clientY rectLeft rectTop : ℚ)
  | buttons (b : Nat)
  | over (o : Bool)
  deriving Repr, DecidableEq

/-- Apply one mouse mutation. -/
def applyMouseOp (s : LumaState) : MouseOp → LumaState
  | MouseOp.move cx cy l t => s.updateMousePosition cx cy l t
  | MouseOp.buttons b => s.updateMouseButtons b
  | MouseOp.over o => s.setMouseOver o

/-- The container after an arbitrary sequence of mouse mutations. -/
def mouseRun (ops : List MouseOp) : LumaState :=
  ops.foldl applyMouseOp initialLumaState

/-- A mesh whose props match the cached copies and whose dirty flag is
clear. -/
noncomputable def cleanMesh : MeshTransform where
  position := (0, 0, 0)
  rotation := (0, 0, 0)
  scale := (1, 1, 1)
  lastPosition := (0, 0, 0)
  lastRotation := (0, 0, 0)
  lastScale := (1, 1, 1)
  matrixDirty := false
  cachedModelMatrix := zeroMat4

/-- The mesh after its first `updateModelMatrix` under an ambient parent
translation by `(1, 0, 0)`. -/
noncomputable def meshM1 : MeshTransform :=
  (initMeshTransform (0, 0, 0) (0, 0, 0) (1, 1, 1)).updateModelMatrix
    (some (mat4Translation 1 0 0))

/-- Whether a callback body never throws. -/
def noThrow (ops : List LumaState.Op) : Bool :=
  ops.all fun o => match o with
    | LumaState.Op.throwErr _ => false
    | _ => true

/-- The pure environment: every callback body does nothing. -/
def envPure : Nat → List LumaState.Op := fun _ => []

/-- The scheduler example: callbacks `0, 1, 2, 3` registered with priorities
`[300, 100, 100, 200]` in that order. -/
def ex4State : LumaState :=
  ((((initialLumaState.addRenderCallback 0 300).2.addRenderCallback 1 100).2.addRenderCallback
      2 100).2.addRenderCallback 3 200).2

/-- State for the reentrant-mutation example: callback `0` at priority 100
and callback `1` at priority 200. -/
def exMutState : LumaState :=
  ((initialLumaState.addRenderCallback 0 100).2.addRenderCallback 1 200).2

/-- Environment for the reentrant-mutation example: callback `0` registers a
new callback (body `5`, priority 50) while the scheduler is iterating. -/
def envMut : Nat → List LumaState.Op := fun n =>
  if n = 0 then [LumaState.Op.add 5 50] else []

/-- State for the throwing example: callbacks `0, 1, 2` at priorities
`100, 200, 300`. -/
def exThrowState : LumaState :=
  (((initialLumaState.addRenderCallback 0 100).2.addRenderCallback 1 200).2.addRenderCallback
      2 300).2

/-- Environment for the throwing example: callback `1` throws `7`. -/
def envThrow : Nat → List LumaState.Op := fun n =>
  if n = 1 then [LumaState.Op.throwErr 7] else []

/-! ## Theorems -/

/-- C5: `tick(t1)` then `tick(t2)` leaves `deltaTime = t2 − t1`; every
`updateFrame` call increments `frameCount` by exactly one and sets `time` to
its argument; `resetFrame` zeroes `time`, `deltaTime`, `frameCount` and
`lastTime`. -/
theorem updateFrame_delta_and_reset (s : LumaState) (t1 t2 t : ℚ) :
    ((s.updateFrame t1).updateFrame t2).frame.deltaTime = t2 - t1
    ∧ (s.updateFrame t).frame.frameCount = s.frame.frameCount + 1
    ∧ (s.updateFrame t).frame.time = t
    ∧ s.resetFrame.frame.time = 0
    ∧ s.resetFrame.frame.deltaTime = 0
    ∧ s.resetFrame.frame.frameCount = 0
    ∧ s.resetFrame.lastTime = 0 := by
  refine ⟨?_, rfl, rfl, rfl, rfl, rfl, rfl⟩
  simp [LumaState.updateFrame]

/-- C9: composing with zero rotation and unit scale yields exactly the pure
translation matrix by `p`. -/
theorem mat4Compose_pure_translation (p : Vec3) :
    mat4Compose p (0, 0, 0) (1, 1, 1) = mat4Translation p.1 p.2.1 p.2.2 := by
  ext <;> simp [mat4Compose, mat4Translation]

/-- C8: when no device is set or the container is not ready, the tick
function `render` is a no-op: the state (frame, pool, registries) is
unchanged, no render callback runs, no auto-clear pass is issued, and the
per-frame user callback is not invoked. -/
theorem render_noop_without_device (env : Nat → List LumaState.Op)
    (autoClear hasOnframe : Bool) (time : ℚ) (w : World)
    (h : w.luma.device = none ∨ w.luma.ready = false) :
    render env autoClear hasOnframe time w = (w, [], none) := by
  rw [render, if_pos h]

/-- Witness for C8: the freshly constructed container has no device, so a
tick leaves it untouched and emits nothing. -/
theorem render_noop_without_device_witness :
    render (fun _ => []) true true 5 ⟨initialLumaState, initMatrixPool⟩ =
      (⟨initialLumaState, initMatrixPool⟩, [], none) :=
  render_noop_without_device _ _ _ _ _ (Or.inl rfl)

/-- `acquire` hands out consecutive slot indices starting at the current
allocation index. -/
theorem acquireN_fst (n : Nat) : ∀ s : MatrixPool, (MatrixPool.acquireN n s).1 = List.range' s.index n := by
  induction n with
  | zero => intro s; rfl
  | succ n ih =>
    intro s
    show (s.acquire.1 :: (MatrixPool.acquireN n s.acquire.2).1, _).1 = _
    simp [MatrixPool.acquire, ih, List.range']

/-- C6: after `reset()`, `N` calls to `acquire()` return the `N` pairwise
distinct slots `0, …, N−1`; writing into slot `i` leaves every other slot
`j` untouched until the next reset; `acquire` returns the current index,
appends exactly one slot when the backing store is exhausted, and the store
never shrinks (neither `acquire` nor `reset` reduces its length). -/
theorem matrixPool_distinct_slots (s : MatrixPool) (n i j : Nat) (m : Mat4) (hij : i ≠ j) :
    (MatrixPool.acquireN n s.reset).1 = List.range n
    ∧ (MatrixPool.acquireN n s.reset).1.Nodup
    ∧ (s.writeSlot i m).pool[j]? = s.pool[j]?
    ∧ s.acquire.1 = s.index
    ∧ s.pool.length ≤ s.acquire.2.pool.length
    ∧ (s.pool.length ≤ s.index → s.acquire.2.pool.length = s.pool.length + 1)
    ∧ s.reset.pool = s.pool := by
  have hfst : (MatrixPool.acquireN n s.reset).1 = List.range n := by
    rw [acquireN_fst n s.reset]
    simp [MatrixPool.reset, List.range_eq_range']
  refine ⟨hfst, ?_, ?_, rfl, ?_, ?_, rfl⟩
  · rw [hfst]; exact List.nodup_range n
  · exact List.getElem?_set_ne hij
  · by_cases h : s.pool.length ≤ s.index <;> simp [MatrixPool.acquire, h]
  · intro h; simp [MatrixPool.acquire, h]

/-- Witness for C6: in the freshly constructed pool, writing slot 0 leaves
slot 1 unchanged, and three acquisitions after a reset yield slots 0, 1, 2. -/
theorem matrixPool_distinct_slots_witness :
    (MatrixPool.acquireN 3 initMatrixPool.reset).1 = List.range 3
    ∧ (initMatrixPool.writeSlot 0 mat4Identity).pool[1]? = initMatrixPool.pool[1]? :=
  ⟨(matrixPool_distinct_slots initMatrixPool 3 0 1 mat4Identity (by decide)).1,
   (matrixPool_distinct_slots initMatrixPool 3 0 1 mat4Identity (by decide)).2.2.1⟩

/-- `Map.set` with a fresh key appends the entry. -/
theorem mapSet_append_of_notMem (k : Nat) (v : LightState) :
    ∀ m : List (Nat × LightState), k ∉ mapKeys m → mapSet k v m = m ++ [(k, v)] := by
  intro m
  induction m with
  | nil => intro _; rfl
  | cons hd tl ih =>
    intro h
    simp only [mapKeys, List.map_cons, List.mem_cons] at h
    push_neg at h
    simp only [mapSet, if_neg (Ne.symm h.1), List.cons_append]
    rw [ih]
    intro hmem
    exact h.2 hmem

/-- Counterexample to C2: the code never caps `getLightsArray()`; after
registering nine lights the enumeration has nine entries, not eight. -/
theorem lights_not_capped_counterexample :
    nineLightsState.getLightsArray.length = 9
    ∧ ¬ nineLightsState.getLightsArray.length ≤ 8 := by decide

/-- C2 (amended): registering a light never errors and stores it in the
registry — with a fresh id it is appended to the enumeration — but
`getLightsArray()` is uncapped: it returns every registered light, so nine
registrations enumerate as nine entries and removing one leaves eight. -/
theorem lights_enumerate_uncapped :
    (∀ (s : LumaState) (id : Nat) (l : LightState), id ∉ mapKeys s.lights →
      (s.addLight id l).getLightsArray = s.getLightsArray ++ [l])
    ∧ nineLightsState.getLightsArray.length = 9
    ∧ (nineLightsState.removeLight 4).getLightsArray.length = 8 := by
  refine ⟨?_, by decide, by decide⟩
  intro s id l h
  simp [LumaState.addLight, LumaState.getLightsArray, mapSet_append_of_notMem id l s.lights h]

/-- Witness for C2 (amended): a tenth light with fresh id 9 is appended to
the enumeration. -/
theorem lights_enumerate_uncapped_witness :
    (nineLightsState.addLight 9 sampleLight).getLightsArray =
      nineLightsState.getLightsArray ++ [sampleLight] :=
  lights_enumerate_uncapped.1 nineLightsState 9 sampleLight (by decide)

/-- Counterexample to C7: pressing a button while outside the canvas and
then entering leaves `buttons > 0 ∧ isOver` true while `isDragging` is still
false, so `isDragging = (buttons > 0 ∧ isOver)` fails. -/
theorem mouse_isDragging_counterexample :
    ((initialLumaState.updateMouseButtons 1).setMouseOver true).mouse.isDragging = false
    ∧ ((initialLumaState.updateMouseButtons 1).setMouseOver true).mouse.buttons > 0
    ∧ ((initialLumaState.updateMouseButtons 1).setMouseOver true).mouse.isOver = true := by
  decide

/-- One mouse mutation preserves the one-sided dragging invariant. -/
theorem mouseInv_step (s : LumaState) (op : MouseOp)
    (h : s.mouse.isDragging = true → s.mouse.buttons > 0 ∧ s.mouse.isOver = true) :
    (applyMouseOp s op).mouse.isDragging = true →
      (applyMouseOp s op).mouse.buttons > 0 ∧ (applyMouseOp s op).mouse.isOver = true := by
  cases op with
  | move cx cy l t =>
    simpa [applyMouseOp, LumaState.updateMousePosition] using h
  | buttons b =>
    simp only [applyMouseOp, LumaState.updateMouseButtons]
    intro hd
    simp only [Bool.and_eq_true, decide_eq_true_eq] at hd
    exact ⟨hd.1, hd.2⟩
  | over o =>
    cases o with
    | false => simp [applyMouseOp, LumaState.setMouseOver]
    | true =>
      intro hd
      have hd' : s.mouse.isDragging = true := by
        simpa [applyMouseOp, LumaState.setMouseOver] using hd
      constructor
      · simpa [applyMouseOp, LumaState.setMouseOver] using (h hd').1
      · simp [applyMouseOp, LumaState.setMouseOver]

/-- The one-sided dragging invariant holds along any mutation sequence. -/
theorem mouseInv_fold :
    ∀ (ops : List MouseOp) (s : LumaState),
      (s.mouse.isDragging = true → s.mouse.buttons > 0 ∧ s.mouse.isOver = true) →
      (ops.foldl applyMouseOp s).mouse.isDragging = true →
        (ops.foldl applyMouseOp s).mouse.buttons > 0
        ∧ (ops.foldl applyMouseOp s).mouse.isOver = true := by
  intro ops
  induction ops with
  | nil => intro s h; exact h
  | cons op rest ih =>
    intro s h
    exact ih (applyMouseOp s op) (mouseInv_step s op h)

/-- C7 (amended): after any sequence of mouse mutations, `isDragging`
implies `buttons > 0 ∧ isOver`, and immediately after `updateMouseButtons`
the full equality `isDragging = (buttons > 0 ∧ isOver)` holds; but when the
pointer enters with buttons already down, `isDragging` stays false until the
next `updateMouseButtons` call, so the equality does not hold after every
sequence. -/
theorem mouse_isDragging_invariant :
    (∀ ops : List MouseOp, (mouseRun ops).mouse.isDragging = true →
      (mouseRun ops).mouse.buttons > 0 ∧ (mouseRun ops).mouse.isOver = true)
    ∧ (∀ (s : LumaState) (b : Nat),
      (s.updateMouseButtons b).mouse.isDragging = (decide (b > 0) && s.mouse.isOver)) := by
  constructor
  · intro ops
    exact mouseInv_fold ops initialLumaState (fun h => absurd h (by decide))
  · intro s b
    rfl

/-- Witness for C7 (amended): entering the canvas and then pressing a button
does set the dragging flag, and the invariant yields `buttons > 0 ∧ isOver`. -/
theorem mouse_isDragging_invariant_witness :
    (mouseRun [MouseOp.over true, MouseOp.buttons 1]).mouse.buttons > 0
    ∧ (mouseRun [MouseOp.over true, MouseOp.buttons 1]).mouse.isOver = true :=
  mouse_isDragging_invariant.1 [MouseOp.over true, MouseOp.buttons 1] (by decide)

/-- The sorted view is ordered by ascending priority. -/
theorem sortCbs_sorted (l : List RenderCallback) :
    (LumaState.sortCbs l).Pairwise (fun a b => a.priority ≤ b.priority) :=
  List.sorted_insertionSort LumaState.cbRel l

/-- Stability of the sorted view: the callbacks of any one priority appear
exactly as they do in the registration order. -/
theorem sortCbs_filter (l : List RenderCallback) (p : Int) :
    (LumaState.sortCbs l).filter (fun c => c.priority == p) =
      l.filter (fun c => c.priority == p) := by
  have hpw : (l.filter (fun c => c.priority == p)).Pairwise LumaState.cbRel := by
    apply List.pairwise_of_forall_mem_list
    intro a ha b hb
    have ha' := (List.mem_filter.mp ha).2
    have hb' := (List.mem_filter.mp hb).2
    simp only [beq_iff_eq] at ha' hb'
    show a.priority ≤ b.priority
    rw [ha', hb']
  have hsub : List.Sublist (l.filter (fun c => c.priority == p)) (LumaState.sortCbs l) :=
    List.sublist_insertionSort hpw (List.filter_sublist l)
  have hsub2 : List.Sublist (l.filter (fun c => c.priority == p))
      ((LumaState.sortCbs l).filter (fun c => c.priority == p)) := by
    have h := hsub.filter (fun c => c.priority == p)
    simpa [List.filter_filter] using h
  have hperm : List.Perm ((LumaState.sortCbs l).filter (fun c => c.priority == p))
      (l.filter (fun c => c.priority == p)) :=
    (List.perm_insertionSort LumaState.cbRel l).filter _
  exact (hsub2.eq_of_length hperm.length_eq.symm).symm

/-- A body with no throw operation completes without an exception. -/
theorem runOps_noThrow :
    ∀ (ops : List LumaState.Op) (s : LumaState), noThrow ops = true →
      (LumaState.runOps ops s).2 = none := by
  intro ops
  induction ops with
  | nil => intro s _; rfl
  | cons op rest ih =>
    intro s h
    cases op with
    | add cb p =>
      exact ih _ (by simpa [noThrow] using h)
    | remove id =>
      exact ih _ (by simpa [noThrow] using h)
    | throwErr e => simp [noThrow] at h

/-- When no body of the captured snapshot throws, the loop invokes exactly
the snapshot, in order, and no exception propagates — whatever registry
mutations the bodies perform. -/
theorem execLoop_noThrow (env : Nat → List LumaState.Op) :
    ∀ (L : List RenderCallback) (s : LumaState),
      (∀ c ∈ L, noThrow (env c.cb) = true) →
      (LumaState.execLoop env L s).2.1 = L ∧ (LumaState.execLoop env L s).2.2 = none := by
  intro L
  induction L with
  | nil => intro s _; exact ⟨rfl, rfl⟩
  | cons c rest ih =>
    intro s h
    have hc : noThrow (env c.cb) = true := h c (List.mem_cons_self c rest)
    have hrun := runOps_noThrow (env c.cb) s hc
    have ih' := ih (LumaState.runOps (env c.cb) s).1
      (fun c' hc' => h c' (List.mem_cons_of_mem c hc'))
    simp only [LumaState.execLoop, hrun]
    exact ⟨by rw [ih'.1], ih'.2⟩

/-- If every body before some position is inert and the body at that
position throws immediately, the loop stops there: the state is returned as
it was, the trace is the prefix up to the thrower, and the exception
propagates. -/
theorem execLoop_throwMid (env : Nat → List LumaState.Op) (c : RenderCallback) (e : Nat)
    (L₂ : List RenderCallback) (hthrow : env c.cb = [LumaState.Op.throwErr e]) :
    ∀ (L₁ : List RenderCallback) (s : LumaState), (∀ c' ∈ L₁, env c'.cb = []) →
      LumaState.execLoop env (L₁ ++ c :: L₂) s = (s, L₁ ++ [c], some e) := by
  intro L₁
  induction L₁ with
  | nil =>
    intro s _
    simp [LumaState.execLoop, hthrow, LumaState.runOps]
  | cons a L₁ ih =>
    intro s h
    have ha : env a.cb = [] := h a (List.mem_cons_self a L₁)
    have ih' := ih s (fun c' hc' => h c' (List.mem_cons_of_mem a hc'))
    simp [LumaState.execLoop, ha, LumaState.runOps, ih']

/-- After the re-sort phase, the cached sorted view is the snapshot, the
sort flag is clear, and the registry is untouched. -/
theorem postSortState_eq (s : LumaState) :
    LumaState.postSortState s =
      { s with sortedCallbacks := LumaState.snapshot s, needsSort := false } := by
  unfold LumaState.postSortState LumaState.snapshot
  cases hns : s.needsSort with
  | false =>
    simp only [Bool.false_eq_true, if_false]
    conv_rhs => rw [← hns]
  | true => simp

/-- `executeRenderCallbacks` runs the loop on the snapshot, starting from
the post-sort state. -/
theorem executeRenderCallbacks_run (env : Nat → List LumaState.Op) (s : LumaState) :
    LumaState.executeRenderCallbacks env s =
      LumaState.execLoop env (LumaState.snapshot s) (LumaState.postSortState s) := by
  unfold LumaState.executeRenderCallbacks LumaState.snapshot LumaState.postSortState
  cases hns : s.needsSort with
  | false => simp
  | true => simp

/-- Under the scheduler invariant, the snapshot is the stable sort of the
registry. -/
theorem snapshot_eq_sortCbs (s : LumaState)
    (hinv : s.needsSort = false → s.sortedCallbacks = LumaState.sortCbs s.renderCallbacks) :
    LumaState.snapshot s = LumaState.sortCbs s.renderCallbacks := by
  unfold LumaState.snapshot
  cases hns : s.needsSort with
  | false => simpa using hinv hns
  | true => simp

/-- C1: `executeRenderCallbacks` invokes the registered callbacks in
ascending priority order, equal priorities in registration order (the
invocation trace filtered to one priority is exactly the registry filtered
to it); registering priorities `[300, 100, 100, 200]` as callbacks
`0, 1, 2, 3` and executing once invokes `1, 2, 3` then `0`. -/
theorem executeRenderCallbacks_priority_order (env : Nat → List LumaState.Op) (s : LumaState)
    (hinv : s.needsSort = false → s.sortedCallbacks = LumaState.sortCbs s.renderCallbacks)
    (hsafe : ∀ c ∈ LumaState.snapshot s, noThrow (env c.cb) = true) :
    (LumaState.executeRenderCallbacks env s).2.1.Pairwise
        (fun a b => a.priority ≤ b.priority)
    ∧ (∀ p : Int, (LumaState.executeRenderCallbacks env s).2.1.filter
          (fun c => c.priority == p) =
        s.renderCallbacks.filter (fun c => c.priority == p))
    ∧ (LumaState.executeRenderCallbacks envPure ex4State).2.1.map RenderCallback.cb
        = [1, 2, 3, 0] := by
  have htr : (LumaState.executeRenderCallbacks env s).2.1 = LumaState.sortCbs s.renderCallbacks := by
    rw [executeRenderCallbacks_run]
    rw [(execLoop_noThrow env (LumaState.snapshot s) _ hsafe).1]
    exact snapshot_eq_sortCbs s hinv
  refine ⟨?_, ?_, by decide⟩
  · rw [htr]; exact sortCbs_sorted s.renderCallbacks
  · intro p; rw [htr]; exact sortCbs_filter s.renderCallbacks p

/-- Witness for C1: the concrete `[300, 100, 100, 200]` registration,
executed under the pure environment. -/
theorem executeRenderCallbacks_priority_order_witness :
    (LumaState.executeRenderCallbacks envPure ex4State).2.1.map RenderCallback.cb
      = [1, 2, 3, 0] :=
  (executeRenderCallbacks_priority_order envPure ex4State (by decide) (by decide)).2.2

/-- C4: the set and order of callbacks invoked by one `executeRenderCallbacks`
call is the snapshot fixed by the state at the start of the call — registry
mutations performed by the running callbacks never alter it — and the
following call iterates the snapshot of the mutated state. -/
theorem executeRenderCallbacks_snapshot_fixed (env : Nat → List LumaState.Op) (s : LumaState)
    (hsafe : ∀ c ∈ LumaState.snapshot s, noThrow (env c.cb) = true)
    (hsafe2 : ∀ c ∈ LumaState.snapshot (LumaState.executeRenderCallbacks env s).1,
      noThrow (env c.cb) = true) :
    (LumaState.executeRenderCallbacks env s).2.1 = LumaState.snapshot s
    ∧ (LumaState.executeRenderCallbacks env s).2.2 = none
    ∧ (LumaState.executeRenderCallbacks env (LumaState.executeRenderCallbacks env s).1).2.1
        = LumaState.snapshot (LumaState.executeRenderCallbacks env s).1 := by
  refine ⟨?_, ?_, ?_⟩
  · rw [executeRenderCallbacks_run]
    exact (execLoop_noThrow env (LumaState.snapshot s) _ hsafe).1
  · rw [executeRenderCallbacks_run]
    exact (execLoop_noThrow env (LumaState.snapshot s) _ hsafe).2
  · rw [executeRenderCallbacks_run env (LumaState.executeRenderCallbacks env s).1]
    exact (execLoop_noThrow env _ _ hsafe2).1

/-- Witness for C4: callback `0` registers a new callback (priority 50)
while the scheduler iterates; the current call still invokes exactly the
two-element snapshot `0, 1`, the registry ends the call with three entries,
and the next call's trace starts with the newly registered callback. -/
theorem executeRenderCallbacks_snapshot_fixed_witness :
    (LumaState.executeRenderCallbacks envMut exMutState).2.1 =
        LumaState.snapshot exMutState
    ∧ (LumaState.executeRenderCallbacks envMut exMutState).2.1.map RenderCallback.cb = [0, 1]
    ∧ (LumaState.executeRenderCallbacks envMut exMutState).1.renderCallbacks.length = 3
    ∧ (LumaState.executeRenderCallbacks envMut
          (LumaState.executeRenderCallbacks envMut exMutState).1).2.1.map RenderCallback.cb
        = [5, 0, 1] :=
  ⟨(executeRenderCallbacks_snapshot_fixed envMut exMutState (by decide) (by decide)).1,
   by decide, by decide, by decide⟩

/-- C10: when the body at one position of the sorted snapshot throws (all
earlier bodies being inert), the callbacks after it are not invoked, the
exception propagates to the caller, and the failing call leaves the registry
and the freshly cached sorted snapshot intact. -/
theorem executeRenderCallbacks_throw_stops (env : Nat → List LumaState.Op) (s : LumaState)
    (L₁ L₂ : List RenderCallback) (c : RenderCallback) (e : Nat)
    (hsnap : LumaState.snapshot s = L₁ ++ c :: L₂)
    (hpre : ∀ c' ∈ L₁, env c'.cb = [])
    (hthrow : env c.cb = [LumaState.Op.throwErr e]) :
    LumaState.executeRenderCallbacks env s =
      ({ s with sortedCallbacks := LumaState.snapshot s, needsSort := false },
        L₁ ++ [c], some e) := by
  rw [executeRenderCallbacks_run, postSortState_eq, hsnap]
  exact execLoop_throwMid env c e L₂ hthrow L₁ _ hpre

/-- Witness for C10: of three callbacks at priorities 100, 200, 300, the
second throws `7`; only the first two are invoked, the error propagates, and
the registry is unchanged. -/
theorem executeRenderCallbacks_throw_stops_witness :
    LumaState.executeRenderCallbacks envThrow exThrowState =
      ({ exThrowState with sortedCallbacks := LumaState.snapshot exThrowState, needsSort := false },
        [⟨0, 100, 0⟩] ++ [⟨1, 200, 1⟩], some 7) :=
  executeRenderCallbacks_throw_stops envThrow exThrowState
    [⟨0, 100, 0⟩] [⟨2, 300, 2⟩] ⟨1, 200, 1⟩ 7 (by decide) (by decide) (by decide)

/-- Evaluating the first mesh update: the transform cache holds
`parent × compose(p, r, s)` and the dirty flag is cleared. -/
theorem meshM1_eq :
    meshM1 =
      { position := ((0 : ℝ), (0 : ℝ), (0 : ℝ)), rotation := (0, 0, 0), scale := (1, 1, 1),
        lastPosition := (0, 0, 0), lastRotation := (0, 0, 0), lastScale := (1, 1, 1),
        matrixDirty := false,
        cachedModelMatrix :=
          mat4Multiply (mat4Translation 1 0 0) (mat4Compose (0, 0, 0) (0, 0, 0) (1, 1, 1)) } := by
  unfold meshM1 MeshTransform.updateModelMatrix MeshTransform.checkTransformDirty
    initMeshTransform
  simp

/-- Counterexample to C3: after the ambient parent transform changes (from a
translation to none), the dirty check still skips recomputation — the second
`updateModelMatrix` returns the mesh unchanged — yet the cached matrix no
longer equals `parent × compose(position, rotation, scale)`: the cache used
for rendering is stale although the claimed validity condition was supposed
to track parent changes. -/
theorem mesh_stale_cache_counterexample :
    meshM1.updateModelMatrix none = meshM1
    ∧ meshM1.cachedModelMatrix ≠ meshWorldMatrix none meshM1 := by
  have hskip : meshM1.updateModelMatrix none = meshM1 := by
    rw [meshM1_eq]
    unfold MeshTransform.updateModelMatrix MeshTransform.checkTransformDirty
    simp
  have h12 : meshM1.cachedModelMatrix.m12 = 1 := by
    rw [meshM1_eq]
    simp [mat4Multiply, mat4Translation, mat4Compose]
  have h12' : (meshWorldMatrix none meshM1).m12 = 0 := by
    rw [meshM1_eq]
    simp [meshWorldMatrix, mat4Compose]
  refine ⟨hskip, fun heq => ?_⟩
  have := congrArg Mat4.m12 heq
  rw [h12, h12'] at this
  norm_num at this

/-- C3 (amended): the dirty check tracks only the local inputs. When
`position`, `rotation`, `scale` equal their cached copies and the
`matrixDirty` flag is clear, `updateModelMatrix` changes nothing — whatever
the ambient parent transform now is; and whenever the local inputs differ or
the flag is set, it recomputes the cache to
`ambientParentTransform × compose(position, rotation, scale)` for the parent
passed at that call and clears the flag. A parent-transform change alone
therefore never triggers recomputation, and leaves the cache stale. -/
theorem mesh_update_local_dirty_only (parent : Option Mat4) (m : MeshTransform) :
    (m.position = m.lastPosition → m.rotation = m.lastRotation → m.scale = m.lastScale →
      m.matrixDirty = false → m.updateModelMatrix parent = m)
    ∧ ((m.matrixDirty = true ∨ m.position ≠ m.lastPosition ∨ m.rotation ≠ m.lastRotation
          ∨ m.scale ≠ m.lastScale) →
        (m.updateModelMatrix parent).cachedModelMatrix = meshWorldMatrix parent m
        ∧ (m.updateModelMatrix parent).matrixDirty = false
        ∧ (m.updateModelMatrix parent).position = m.position
        ∧ (m.updateModelMatrix parent).rotation = m.rotation
        ∧ (m.updateModelMatrix parent).scale = m.scale) := by
  constructor
  · intro h1 h2 h3 h4
    have hc : m.checkTransformDirty = (false, m) := by
      unfold MeshTransform.checkTransformDirty
      rw [if_neg]
      push_neg
      exact ⟨h1, h2, h3⟩
    unfold MeshTransform.updateModelMatrix
    rw [hc]
    simp [h4]
  · intro h
    by_cases hd : m.position ≠ m.lastPosition ∨ m.rotation ≠ m.lastRotation
        ∨ m.scale ≠ m.lastScale
    · have hc : m.checkTransformDirty =
          (true, { m with lastPosition := m.position, lastRotation := m.rotation, lastScale := m.scale }) := by
        unfold MeshTransform.checkTransformDirty
        rw [if_pos hd]
      unfold MeshTransform.updateModelMatrix
      rw [hc]
      cases parent <;> simp [meshWorldMatrix]
    · have hc : m.checkTransformDirty = (false, m) := by
        unfold MeshTransform.checkTransformDirty
        rw [if_neg hd]
      have hmd : m.matrixDirty = true := by
        push_neg at hd
        rcases h with h | h | h | h
        · exact h
        · exact absurd hd.1 h
        · exact absurd hd.2.1 h
        · exact absurd hd.2.2 h
      unfold MeshTransform.updateModelMatrix
      rw [hc]
      cases parent <;> simp [hmd, meshWorldMatrix]

/-- Witness for C3 (amended): a clean mesh is untouched by an update with no
parent installed, and a first update of a dirty mesh computes
`parent × compose(p, r, s)`. -/
theorem mesh_update_local_dirty_only_witness :
    cleanMesh.updateModelMatrix none = cleanMesh
    ∧ ((initMeshTransform (0, 0, 0) (0, 0, 0) (1, 1, 1)).updateModelMatrix
          (some (mat4Translation 1 0 0))).cachedModelMatrix
        = meshWorldMatrix (some (mat4Translation 1 0 0))
            (initMeshTransform (0, 0, 0) (0, 0, 0) (1, 1, 1)) :=
  ⟨(mesh_update_local_dirty_only none cleanMesh).1 rfl rfl rfl rfl,
   ((mesh_update_local_dirty_only (some (mat4Translation 1 0 0))
      (initMeshTransform (0, 0, 0) (0, 0, 0) (1, 1, 1))).2 (Or.inl rfl)).1⟩

end Luma
